import Mathlib

/-!
# Verification of the `bare` destination-resolution and mount-lifecycle subsystem

This file is a shallow embedding, in Lean 4, of the core of the `bare`
backup tool: destination classification (`bare/destination_handler.py`),
the device registry (`bare/finder/devices.py`), the mount dispatcher
(`bare/mount/base.py`, `drive.py`, `physical.py`, `rclone.py`), the
mount manager / reconciler (`bare/mount_manager.py`), the gocryptfs
finder (`bare/finder/gocryptfs.py`) and the command-execution utility
(`bare/utils.py`).

Conventions of the embedding:
* Filesystem and process state that the Python code queries
  (`os.path.exists`, `os.path.ismount`, `/proc/mounts`, the output of
  external commands) is passed in explicitly as data.
* Side effects (creating temporary directories, invoking mount and
  unmount primitives, removing directories and links) are recorded as
  an explicit list of `Effect` values instead of being performed.
* Python exceptions are modelled with `Except`; `PyExc` distinguishes a
  plain `Exception(msg)` from `AttributeError` and `KeyError`.
* Python truthiness of an optional string argument (`if name and ...`)
  is modelled by `optTruthy`: the argument is present and non-empty.
-/

namespace Bare

/-- Python strings are sequences of characters; `s.startswith(pre)` is
prefix comparison of the character sequences. -/
def pyStartsWith (s pre : String) : Bool :=
  pre.toList.isPrefixOf s.toList

/-- Python `s.endswith(suf)`: suffix comparison of the character
sequences. -/
def pyEndsWith (s suf : String) : Bool :=
  suf.toList.isSuffixOf s.toList

/-- `pat` occurs as a contiguous run inside `s` (checked at every
suffix). -/
def charsContain (pat : List Char) : List Char → Bool
  | [] => pat.isPrefixOf []
  | c :: t => pat.isPrefixOf (c :: t) || charsContain pat t

/-- Substring containment, Python's `pat in s`. -/
def strContains (s pat : String) : Bool :=
  charsContain pat.toList s.toList

/-- POSIX `os.path.isabs`: the path starts with a slash. -/
def os_path_isabs (s : String) : Bool :=
  pyStartsWith s "/"

/-- POSIX `os.path.join` on two components, as the code uses it. -/
def os_path_join (a b : String) : String :=
  if pyStartsWith b "/" then b
  else if a.isEmpty || pyEndsWith a "/" then a ++ b
  else a ++ "/" ++ b

/-- The characters CPython's `urllib.parse` accepts inside a URL scheme:
ASCII letters, digits, `+`, `-` and `.`. -/
def schemeChar (c : Char) : Bool :=
  c.isAlpha || c.isDigit || c == '+' || c == '-' || c == '.'

/-- The `scheme` field computed by CPython's `urllib.parse.urlparse`:
the text before the first `:` when that text is non-empty, starts with
an ASCII letter and consists of scheme characters only, lowercased;
otherwise the empty string. -/
def urlparseScheme (url : String) : String :=
  let cs := url.toList
  match cs.findIdx? (fun c => c == ':') with
  | none => ""
  | some i =>
    if 0 < i
        && (match cs.head? with
            | some c => c.isAlpha
            | none => false)
        && (cs.take i).all schemeChar then
      String.mk ((cs.take i).map Char.toLower)
    else ""

/-- The remainder of the destination after the five-character slice
`destination[5:]` that strips the `rest:` tag. -/
def restRemainder (destination : String) : String :=
  String.mk (destination.toList.drop 5)

/-- `DestinationHandler.detect_destination_type`
(`bare/destination_handler.py`, lines 24-42).  The state of
`os.path.exists` is passed in as the predicate `pathExists`. -/
def detect_destination_type (pathExists : String → Bool) (destination : String) :
    String :=
  if pyStartsWith destination "rest:"
      && ["http", "https"].contains (urlparseScheme (restRemainder destination)) then
    "restic_rest_server"
  else if !os_path_isabs destination && !pathExists destination then
    "volume"
  else
    "abs_path"

end Bare

namespace Bare

/-- The uniform device record produced by every backend finder and
consumed by the registry and the mount dispatcher. -/
structure Device where
  name : String
  label : String
  fstype : String
  mountpoints : List String
deriving Repr, DecidableEq

/-- Python truthiness of an optional string argument: present and non-empty. -/
def optTruthy : Option String → Bool
  | none => false
  | some s => !s.isEmpty

/-- How Python renders an optional string inside an f-string:
`None` prints as `"None"`. -/
def pyOptStr : Option String → String
  | none => "None"
  | some s => s

/-- `DeviceFinder.find_device` (`bare/finder/devices.py`, lines 35-60):
filter the merged finder output; a device is kept when a truthy `name`
equals its name, or (elif) a truthy `label` equals its label, or (elif)
a truthy `path` is among its mountpoints.  The `if`/`elif` chain appends
the device at most once, so it is the filter by the disjunction. -/
def find_device (devices : List Device) (label name path : Option String) :
    List Device :=
  devices.filter fun device =>
    (optTruthy name && device.name == name.getD "")
    || (optTruthy label && device.label == label.getD "")
    || (optTruthy path && device.mountpoints.contains (path.getD ""))

/-- `MountBase.get_device` (`bare/mount/base.py`, lines 73-100): reject a
call with no criterion, then demand exactly one registry match.  The
`devices[0]` access behind the two guards is the single-element pattern. -/
def get_device (devices : List Device) (label device_name path : Option String) :
    Except String Device :=
  if label.isNone && device_name.isNone && path.isNone then
    .error "Either a label or a device name or the mountpint must be provided."
  else
    match find_device devices label device_name path with
    | [] =>
      .error ("I could find the device with specified label: "
        ++ pyOptStr label ++ ".")
    | [d] => .ok d
    | _ :: _ :: _ => .error "Multiple devices found with the specified label/name."

/-- One side effect performed by the mount layer.  The Python code
performs these through `tempfile`, `os` and external commands; the
embedding records them instead. -/
inductive Effect where
  /-- `generate_temporary_directory`: `tempfile.mkdtemp` + `chmod 700`. -/
  | mkTempDir (path : String)
  /-- A backend mount primitive invoked for a device identifier
  (`udisksctl mount -b /dev/...`, `rclone mount ... --daemon`, ...). -/
  | mountPrim (ident : String)
  /-- Dispatch to a backend unmount for a filesystem kind and target path. -/
  | dispatchUnmount (fstype : String) (path : Option String)
  /-- `os.rmdir`. -/
  | rmdir (path : String)
  /-- `os.unlink`. -/
  | unlink (path : String)
deriving Repr, DecidableEq

/-- `MountDrivePhysical.mount` with a device dictionary supplied
(`bare/mount/physical.py`, lines 116-140), on Linux: if the device has no
mountpoints, invoke `udisksctl mount -b /dev/<name>` and return `True`
(newly mounted); otherwise print that the device is already mounted and
return `False`.  The Linux primitive creates no directory itself. -/
def MountDrivePhysical.mount (device : Device) : Bool × List Effect :=
  if device.mountpoints.isEmpty then
    (true, [.mountPrim device.name])
  else
    (false, [])

/-- `MountDriveRclone.mount` with a device dictionary supplied
(`bare/mount/rclone.py`, lines 14-41): if the device has no mountpoints,
create a fresh restrictive-permission temporary directory `tmp` and run
`rclone mount <label> <tmp> --daemon`, returning `True`; otherwise print
that the device is already mounted and return `False`.  The fresh name
chosen by `tempfile.mkdtemp` is passed in as `tmp`. -/
def MountDriveRclone.mount (tmp : String) (device : Device) : Bool × List Effect :=
  if device.mountpoints.isEmpty then
    (true, [.mkTempDir tmp, .mountPrim device.label])
  else
    (false, [])

/-- `MountDrive.mount` (`bare/mount/drive.py`, lines 12-34): resolve
exactly one device through `get_device` (label/name only, no path), then
select the rclone backend for `fuse.rclone` and the physical backend
otherwise.  The `if device is None` guard after `get_device` can never
fire, since `get_device` either raises or returns a device.  On a raised
error no effect has been performed. -/
def MountDrive.mount (devices : List Device) (tmp : String)
    (label device_name : Option String) :
    Except String Bool × List Effect :=
  match get_device devices label device_name none with
  | .error e => (.error e, [])
  | .ok device =>
    if device.fstype == "fuse.rclone" then
      let (fresh, effs) := MountDriveRclone.mount tmp device
      (.ok fresh, effs)
    else
      let (fresh, effs) := MountDrivePhysical.mount device
      (.ok fresh, effs)

/-- "Calling mount twice" on the same device state: the first call's
result, the second call's result, and the combined effect trace.  When
the first call performs no effect the device's mountpoints are unchanged,
so the second call sees the same device. -/
def MountDrivePhysical.mountTwice (device : Device) : Bool × Bool × List Effect :=
  let r1 := MountDrivePhysical.mount device
  let r2 := MountDrivePhysical.mount device
  (r1.1, r2.1, r1.2 ++ r2.2)

/-- Two successive rclone mount calls on the same device state (see
`MountDrivePhysical.mountTwice`). -/
def MountDriveRclone.mountTwice (tmp1 tmp2 : String) (device : Device) :
    Bool × Bool × List Effect :=
  let r1 := MountDriveRclone.mount tmp1 device
  let r2 := MountDriveRclone.mount tmp2 device
  (r1.1, r2.1, r1.2 ++ r2.2)

/-- `MountDrive.unmount` (`bare/mount/drive.py`, lines 47-71): resolve
the device through `get_device` from label, name or path, then dispatch
to the backend chosen by `fstype` with the same `path` argument.  The
`if len(device) < 1` guard counts the keys of the device dictionary,
which is always 4, so it never fires. -/
def MountDrive.unmount (devices : List Device) (label device_name path : Option String) :
    Except String (List Effect) :=
  match get_device devices label device_name path with
  | .error e => .error e
  | .ok device => .ok [.dispatchUnmount device.fstype path]

/-- The reserved naming tag `MountBase.prefix = "BUP.tmp."`
(`bare/mount/base.py`, line 17). -/
def bupTag : String := "BUP.tmp."

/-- `DestinationHandler` state after construction
(`bare/destination_handler.py`, lines 8-22): `do_i_mounted` starts
`False` and is set by `_mount_drive` during acquire. -/
structure DestinationHandler where
  destination : String
  relative_path : Option String
  destination_type : String
  do_i_mounted : Bool
deriving Repr, DecidableEq

/-- `DestinationHandler.unmount` (`bare/destination_handler.py`, lines
105-110): delegate to the dispatcher's unmount only when the destination
is a volume and this handler performed the mount; otherwise do nothing.
The dispatcher call `self.mounter.unmount(self.destination)` is passed
in as `dispatcherUnmount`, applied to the destination label. -/
def DestinationHandler.unmount (h : DestinationHandler)
    (dispatcherUnmount : String → List Effect) : List Effect :=
  if h.destination_type == "volume" && h.do_i_mounted then
    dispatcherUnmount h.destination
  else
    []

/-- `DestinationHandler.__exit__` (`bare/destination_handler.py`, lines
118-122): context-manager exit just calls `unmount`. -/
def DestinationHandler.exitCtx (h : DestinationHandler)
    (dispatcherUnmount : String → List Effect) : List Effect :=
  h.unmount dispatcherUnmount

/-- One directory entry under the managed temp-directory root, with the
filesystem facts the reconciler queries about it: `os.path.islink`,
whether the link's resolved target exists (`os.path.exists` on the
joined target of `os.readlink`), `os.path.ismount`, and `os.listdir`. -/
structure FsEntry where
  name : String
  isLink : Bool
  targetExists : Bool
  isMount : Bool
  contents : List String
deriving Repr, DecidableEq

/-- The body of `MountManager.clean`'s loop for one tagged entry
(`bare/mount_manager.py`, lines 112-117 and 130-140): a symbolic link is
unlinked when its target no longer exists
(`clean_broken_symbolic_link`); otherwise a directory is removed when it
is not a mount point and `os.listdir` is empty. -/
def MountManager.cleanEntry (e : FsEntry) : List Effect :=
  if e.isLink then
    if !e.targetExists then [.unlink e.name] else []
  else if !e.isMount && e.contents.isEmpty then
    [.rmdir e.name]
  else
    []

/-- `MountManager.clean` (`bare/mount_manager.py`, lines 105-117): run
`cleanEntry` over every entry of the root listing whose name carries the
reserved tag (`get_folders_created` filters with `prefix in x`). -/
def MountManager.clean (ls : List FsEntry) : List Effect :=
  (ls.filter fun e => strContains e.name bupTag).flatMap MountManager.cleanEntry

/-- One entry of the temp root as `get_mounted_devices` sees it:
its name, whether it is a mount point, and the device identifier that
`MountPointFinder.find_device` resolves for its path — `none` when the
`/proc/mounts` (or `ps`) lookup finds no matching line. -/
structure Session where
  name : String
  isMount : Bool
  device : Option String
deriving Repr, DecidableEq

/-- Python dict assignment `d[k] = v`: replace the value in place when
the key is present, else append the pair. -/
def dictInsert (d : List (Option String × String)) (k : Option String)
    (v : String) : List (Option String × String) :=
  if d.any (fun p => p.1 == k) then
    d.map (fun p => if p.1 == k then (k, v) else p)
  else
    d ++ [(k, v)]

/-- `MountManager.get_mounted_devices` (`bare/mount_manager.py`, lines
74-92): keep the tagged entries of the root listing, and for each that
is currently a mount point, store `devices[device] = path` where
`device` is the platform lookup's result (possibly `None`) and `path`
is the joined path of the entry. -/
def MountManager.get_mounted_devices (dirname : String) (ls : List Session) :
    List (Option String × String) :=
  ((ls.filter fun s => strContains s.name bupTag).filter
    (fun s => s.isMount)).foldl
    (fun d s => dictInsert d s.device (os_path_join dirname s.name)) []

/-- `MountManager.umount_all` (`bare/mount_manager.py`, lines 94-103):
for every value `path` of `get_mounted_devices` call
`self.mounter.unmount(path=path)`, accumulating the dispatched effects.
The device keys of the dictionary are ignored.  The call
`self.finder.find_device()` whose result `all_devices` is never used
returns an empty list without raising (see `find_device`). -/
def MountManager.umount_all (devices : List Device) (dirname : String)
    (ls : List Session) : Except String (List Effect) :=
  (MountManager.get_mounted_devices dirname ls).foldlM
    (fun acc kv => do
      let effs ← MountDrive.unmount devices none none (some kv.2)
      pure (acc ++ effs))
    []

/-- A Python exception value, as far as this code distinguishes them. -/
inductive PyExc where
  /-- A plain `Exception(msg)`. -/
  | exc (msg : String)
  /-- `AttributeError` for the named missing attribute. -/
  | attributeError (attr : String)
  /-- `KeyError` for the named missing key. -/
  | keyError (key : String)
deriving Repr, DecidableEq

/-- The observable outcome of one external command: exit code and the
captured output streams. -/
structure CmdResult where
  returncode : Int
  stdout : String
  stderr : String
deriving Repr, DecidableEq

/-- `execute_command` (`bare/utils.py`, lines 50-105): raise
`Exception("Command failed with error: " + stderr)` on a non-zero exit
unless `ignore_error`, else return the captured stdout. -/
def execute_command (r : CmdResult) (ignore_error : Bool) : Except PyExc String :=
  if r.returncode ≠ 0 && !ignore_error then
    .error (.exc ("Command failed with error: " ++ r.stderr))
  else
    .ok r.stdout

/-- Attribute lookup `e.stderr` on an exception value: none of the
exception kinds this code raises carries a `stderr` attribute — in
particular the plain `Exception` raised by `execute_command` does not
(`subprocess.CalledProcessError` would, but `execute_command` never
raises it). -/
def PyExc.getattrStderr : PyExc → Option String
  | _ => none

/-- `MountDriveLinux.unmount` (`bare/mount/physical.py`, lines 29-49):
run `udisksctl unmount -p <path>` (its outcome is `r`); on success
return (no output).  On failure the handler evaluates
`e.stderr.decode("utf-8")` — the `Exception` raised by
`execute_command` has no `stderr` attribute, so this lookup itself
raises `AttributeError`, which nothing catches.  Were the attribute
present, a message containing `"busy"` would be printed as a warning
(the returned string list) and any other message re-raised as
`Exception("Failed to unmount <path>: <msg>")`. -/
def MountDriveLinux.unmount (path : String) (r : CmdResult) :
    Except PyExc (List String) :=
  match execute_command r false with
  | .ok _ => .ok []
  | .error e =>
    match e.getattrStderr with
    | none => .error (.attributeError "stderr")
    | some raw =>
      let msg := raw.trimRight
      if strContains msg "busy" then
        .ok [s!"The device at {path} is being used and cannot be unmounted:",
             msg,
             "Please close any applications that might be using the device."]
      else
        .error (.exc (s!"Failed to unmount {path}: " ++ msg))

/-- One parsed entry of the mount table as `parse_mount`
(`bare/utils.py`, lines 193-238) builds it: a dictionary with exactly
the keys `src`, `dst`, `fstype` and `args`. -/
structure MountEntry where
  src : String
  dst : String
  fstype : String
  args : String
deriving Repr, DecidableEq

/-- Python `entry[k]` on a `parse_mount` dictionary: the four stored
keys succeed, every other key raises `KeyError(k)`. -/
def MountEntry.get (e : MountEntry) (k : String) : Except PyExc String :=
  if k == "src" then .ok e.src
  else if k == "dst" then .ok e.dst
  else if k == "fstype" then .ok e.fstype
  else if k == "args" then .ok e.args
  else .error (.keyError k)

/-- The body of `GocryptfsFinder._format_finder`'s loop for one drive
(`bare/finder/gocryptfs.py`, lines 57-65): build the formatted device
dictionary, reading the keys in the order the dict literal evaluates
them — `src`, `fstype`, then `dest`. -/
def GocryptfsFinder.formatOne (drive : MountEntry) : Except PyExc Device := do
  let label ← drive.get "src"
  let fstype ← drive.get "fstype"
  let dest ← drive.get "dest"
  pure { name := "gocryptfs", label := label, fstype := fstype,
         mountpoints := [dest] }

/-- `GocryptfsFinder._format_finder` (`bare/finder/gocryptfs.py`, lines
47-66): format each drive in turn; a raised `KeyError` propagates. -/
def GocryptfsFinder.format_finder (drives : List MountEntry) :
    Except PyExc (List Device) :=
  drives.mapM GocryptfsFinder.formatOne

/-- `GocryptfsFinder._get_gocryptfs_mounted` (`bare/finder/gocryptfs.py`,
lines 37-45): keep the mount-table entries whose `fstype` is
`fuse.gocryptfs`. -/
def GocryptfsFinder.get_gocryptfs_mounted (mounts : List MountEntry) :
    List MountEntry :=
  mounts.filter fun m => m.fstype == "fuse.gocryptfs"

/-- `GocryptfsFinder.get_drives` (`bare/finder/gocryptfs.py`, lines
10-17) applied to a parsed mount table. -/
def GocryptfsFinder.get_drives (mounts : List MountEntry) :
    Except PyExc (List Device) :=
  GocryptfsFinder.format_finder (GocryptfsFinder.get_gocryptfs_mounted mounts)

/-! ## Theorems -/

/-- An absolute POSIX path begins with `/`, so it cannot begin with the
reserved `rest:` tag. -/
theorem isabs_not_rest {d : String} (h : os_path_isabs d = true) :
    pyStartsWith d "rest:" = false := by
  unfold os_path_isabs at h
  unfold pyStartsWith at h ⊢
  rw [show "/".toList = ['/'] from rfl] at h
  rw [show "rest:".toList = ['r','e','s','t',':'] from rfl]
  cases hd : d.toList with
  | nil => rw [hd] at h; simp at h
  | cons c t =>
    rw [hd] at h
    simp at h
    subst h
    simp [List.isPrefixOf]

/-- The Boolean REST-URL test of `detect_destination_type`, as a
proposition. -/
theorem restCond_iff (d : String) :
    (pyStartsWith d "rest:"
      && ["http", "https"].contains (urlparseScheme (restRemainder d))) = true ↔
    (pyStartsWith d "rest:" = true ∧
      (urlparseScheme (restRemainder d) = "http" ∨
       urlparseScheme (restRemainder d) = "https")) := by
  simp [List.contains]

/-- C1: `detect_destination_type` is pure and total and evaluates its
rules in order: it returns `"restic_rest_server"` iff the destination
starts with `rest:` and the remainder parses (via the `urlparse` scheme
rules) as an `http`/`https` URL; otherwise it returns `"volume"` iff the
destination is not an absolute path and does not exist; otherwise
`"abs_path"` — every string classifies to exactly one of the three
types, and an existing absolute path always classifies `"abs_path"`. -/
theorem detect_destination_type_spec (pathExists : String → Bool) (d : String) :
    (detect_destination_type pathExists d = "restic_rest_server" ↔
      (pyStartsWith d "rest:" = true ∧
        (urlparseScheme (restRemainder d) = "http" ∨
         urlparseScheme (restRemainder d) = "https"))) ∧
    (¬(pyStartsWith d "rest:" = true ∧
        (urlparseScheme (restRemainder d) = "http" ∨
         urlparseScheme (restRemainder d) = "https")) →
      (detect_destination_type pathExists d = "volume" ↔
        (os_path_isabs d = false ∧ pathExists d = false))) ∧
    (detect_destination_type pathExists d = "restic_rest_server" ∨
      detect_destination_type pathExists d = "volume" ∨
      detect_destination_type pathExists d = "abs_path") ∧
    (os_path_isabs d = true → pathExists d = true →
      detect_destination_type pathExists d = "abs_path") := by
  unfold detect_destination_type
  cases h1 : (pyStartsWith d "rest:"
      && ["http", "https"].contains (urlparseScheme (restRemainder d))) with
  | true =>
    have hp := (restCond_iff d).mp h1
    refine ⟨?_, ?_, ?_, ?_⟩
    · simp [hp]
    · intro hn; exact absurd hp hn
    · simp
    · intro ha _
      rw [isabs_not_rest ha] at hp
      exact absurd hp.1 (by decide)
  | false =>
    have hnp : ¬(pyStartsWith d "rest:" = true ∧
        (urlparseScheme (restRemainder d) = "http" ∨
         urlparseScheme (restRemainder d) = "https")) := by
      intro hp
      rw [(restCond_iff d).mpr hp] at h1
      exact absurd h1 (by decide)
    refine ⟨?_, ?_, ?_, ?_⟩
    · cases h2 : (!os_path_isabs d && !pathExists d) <;> simp [hnp]
    · intro _
      cases h2 : (!os_path_isabs d && !pathExists d) with
      | true =>
        simp at h2 ⊢
        exact ⟨h2.1, h2.2⟩
      | false =>
        simp at h2 ⊢
        intro hab
        exact h2 hab
    · cases h2 : (!os_path_isabs d && !pathExists d) <;> simp
    · intro ha hp
      simp [ha, hp]

/-- C1 witness: an existing absolute directory classifies `"abs_path"`
and a `rest:https://...` destination classifies `"restic_rest_server"`,
evaluated at concrete inputs through `detect_destination_type_spec`. -/
theorem detect_destination_type_spec_witness :
    detect_destination_type (fun s => s == "/tmp") "/tmp" = "abs_path" ∧
    detect_destination_type (fun _ => false) "rest:https://host/repo" =
      "restic_rest_server" := by
  constructor
  · exact (detect_destination_type_spec (fun s => s == "/tmp") "/tmp").2.2.2
      (by decide) (by decide)
  · exact (detect_destination_type_spec (fun _ => false)
      "rest:https://host/repo").1.mpr ⟨by decide, Or.inr (by decide)⟩

/-- A truthy optional string argument is present. -/
theorem optTruthy_eq_some {o : Option String} (h : optTruthy o = true) :
    ∃ s, o = some s := by
  cases o with
  | none => exact absurd h (by decide)
  | some s => exact ⟨s, rfl⟩

/-- C9 counterexample: calling the registry's `find_device` with no
criterion at all is not an error — on a registry holding one device it
returns the empty list, a normal result.  (`find_device` is total: its
type has no error outcome, mirroring the raise-free Python body.) -/
theorem find_device_no_criterion_counterexample :
    find_device [⟨"sda1", "DATA", "ext4", ["/mnt/a"]⟩] none none none = [] := by
  decide

/-- C9 amended: `find_device` with no criterion supplied raises nothing
and returns the empty sequence (every filter arm is guarded by a truthy
argument); the missing-criterion caller error is raised one layer up, by
`MountBase.get_device` when label, name and path are all absent. -/
theorem find_device_no_criterion_amended (devices : List Device) :
    find_device devices none none none = [] ∧
    get_device devices none none none =
      .error "Either a label or a device name or the mountpint must be provided." := by
  constructor
  · simp [find_device, optTruthy]
  · rfl

/-- C10: the registry returns no false positives — every device in the
result of `find_device` matches a supplied criterion: its name equals a
given name, or its label equals a given label, or a given path is among
its mountpoints. -/
theorem find_device_no_false_positive (devices : List Device)
    (label name path : Option String) (d : Device)
    (hd : d ∈ find_device devices label name path) :
    (∃ s, name = some s ∧ d.name = s) ∨
    (∃ s, label = some s ∧ d.label = s) ∨
    (∃ s, path = some s ∧ s ∈ d.mountpoints) := by
  unfold find_device at hd
  rw [List.mem_filter] at hd
  obtain ⟨-, hcond⟩ := hd
  simp only [Bool.or_eq_true, Bool.and_eq_true, beq_iff_eq] at hcond
  rcases hcond with (⟨ht, he⟩ | ⟨ht, he⟩) | ⟨ht, he⟩
  · obtain ⟨s, rfl⟩ := optTruthy_eq_some ht
    exact Or.inl ⟨s, rfl, by simpa using he⟩
  · obtain ⟨s, rfl⟩ := optTruthy_eq_some ht
    exact Or.inr (Or.inl ⟨s, rfl, by simpa using he⟩)
  · obtain ⟨s, rfl⟩ := optTruthy_eq_some ht
    refine Or.inr (Or.inr ⟨s, rfl, ?_⟩)
    simpa using he

/-- C10 witness: a concrete label query through
`find_device_no_false_positive`. -/
theorem find_device_no_false_positive_witness :
    (∃ s, (none : Option String) = some s ∧ "sda1" = s) ∨
    (∃ s, (some "DATA" : Option String) = some s ∧ "DATA" = s) ∨
    (∃ s, (none : Option String) = some s ∧
      s ∈ (["/mnt/a"] : List String)) :=
  find_device_no_false_positive [⟨"sda1", "DATA", "ext4", ["/mnt/a"]⟩]
    (some "DATA") none none
    ⟨"sda1", "DATA", "ext4", ["/mnt/a"]⟩ (by decide)

/-- C2: with a criterion supplied, the dispatcher's mount raises the
not-found error when the registry matches zero devices and the
ambiguous-match error when it matches more than one, and in both error
cases it performs no effect — no temporary directory is created and no
mount primitive is invoked. -/
theorem mount_resolution_error_cases (devices : List Device) (tmp : String)
    (label device_name : Option String)
    (hsome : label.isSome = true ∨ device_name.isSome = true) :
    (find_device devices label device_name none = [] →
      MountDrive.mount devices tmp label device_name =
        (.error ("I could find the device with specified label: "
          ++ pyOptStr label ++ "."), [])) ∧
    (2 ≤ (find_device devices label device_name none).length →
      MountDrive.mount devices tmp label device_name =
        (.error "Multiple devices found with the specified label/name.", [])) := by
  have hcrit : ¬(label = none ∧ device_name = none) := by
    rintro ⟨h1, h2⟩
    rcases hsome with h | h
    · rw [h1] at h; exact absurd h (by decide)
    · rw [h2] at h; exact absurd h (by decide)
  constructor
  · intro hfind
    unfold MountDrive.mount get_device
    simp [hcrit, hfind]
  · intro hlen
    unfold MountDrive.mount get_device
    cases hf : find_device devices label device_name none with
    | nil => rw [hf] at hlen; simp at hlen
    | cons a t =>
      cases t with
      | nil => rw [hf] at hlen; simp at hlen
      | cons b t2 => simp [hcrit, hf]

/-- C2 witness: mounting label `DATA` against an empty registry raises
not-found, and against two devices sharing label `DATA` raises
ambiguous-match, in both cases with an empty effect trace. -/
theorem mount_resolution_error_cases_witness :
    MountDrive.mount [] "/tmp/BUP.tmp.a" (some "DATA") none =
      (.error "I could find the device with specified label: DATA.", []) ∧
    MountDrive.mount [⟨"sda1", "DATA", "ext4", []⟩, ⟨"sdb1", "DATA", "ext4", []⟩]
        "/tmp/BUP.tmp.a" (some "DATA") none =
      (.error "Multiple devices found with the specified label/name.", []) := by
  constructor
  · exact (mount_resolution_error_cases [] "/tmp/BUP.tmp.a" (some "DATA") none
      (Or.inl rfl)).1 (by decide)
  · exact (mount_resolution_error_cases
      [⟨"sda1", "DATA", "ext4", []⟩, ⟨"sdb1", "DATA", "ext4", []⟩]
      "/tmp/BUP.tmp.a" (some "DATA") none (Or.inl rfl)).2 (by decide)

/-- C3: release is conditional on ownership — when the destination type
is not `volume` or `do_i_mounted` is false, `unmount` (also via
context-manager exit) performs no effect; it delegates to the dispatcher
exactly when the type is `volume` and `do_i_mounted` is true. -/
theorem unmount_only_when_owned (h : DestinationHandler)
    (disp : String → List Effect) :
    (h.destination_type ≠ "volume" ∨ h.do_i_mounted = false →
      h.unmount disp = [] ∧ h.exitCtx disp = []) ∧
    (h.destination_type = "volume" → h.do_i_mounted = true →
      h.unmount disp = disp h.destination ∧
      h.exitCtx disp = disp h.destination) := by
  constructor
  · intro hcase
    unfold DestinationHandler.exitCtx DestinationHandler.unmount
    rcases hcase with hne | hf
    · simp [hne]
    · simp [hf]
  · intro ht hm
    unfold DestinationHandler.exitCtx DestinationHandler.unmount
    simp [ht, hm]

/-- C3 witness: a handler for an `abs_path` destination that did not
mount releases with no effect, through `unmount_only_when_owned`. -/
theorem unmount_only_when_owned_witness :
    DestinationHandler.unmount ⟨"DATA", none, "abs_path", false⟩
      (fun _ => [.rmdir "/x"]) = [] ∧
    DestinationHandler.exitCtx ⟨"DATA", none, "abs_path", false⟩
      (fun _ => [.rmdir "/x"]) = [] :=
  (unmount_only_when_owned ⟨"DATA", none, "abs_path", false⟩
    (fun _ => [.rmdir "/x"])).1 (Or.inl (by decide))

/-- C4: every removal performed by `clean` is either the unlinking of a
tagged broken symbolic link or the removal of a tagged directory that is
not a mount point and is empty — it never removes an active mount point
or a directory with contents. -/
theorem clean_removes_only_safe_entries (ls : List FsEntry) (x : Effect)
    (hx : x ∈ MountManager.clean ls) :
    ∃ e, e ∈ ls ∧ strContains e.name bupTag = true ∧
      ((e.isLink = true ∧ e.targetExists = false ∧ x = .unlink e.name) ∨
       (e.isLink = false ∧ e.isMount = false ∧ e.contents = [] ∧
         x = .rmdir e.name)) := by
  unfold MountManager.clean at hx
  rw [List.mem_flatMap] at hx
  obtain ⟨e, he, hxe⟩ := hx
  rw [List.mem_filter] at he
  obtain ⟨hmem, htag⟩ := he
  refine ⟨e, hmem, htag, ?_⟩
  unfold MountManager.cleanEntry at hxe
  cases hl : e.isLink with
  | true =>
    rw [hl] at hxe
    simp at hxe
    cases hte : e.targetExists with
    | true => rw [hte] at hxe; simp at hxe
    | false =>
      rw [hte] at hxe
      simp at hxe
      exact Or.inl ⟨rfl, rfl, hxe⟩
  | false =>
    rw [hl] at hxe
    simp at hxe
    cases hmount : e.isMount with
    | true => rw [hmount] at hxe; simp at hxe
    | false =>
      rw [hmount] at hxe
      cases hc : e.contents with
      | nil => rw [hc] at hxe; simp at hxe; exact Or.inr ⟨rfl, rfl, rfl, hxe⟩
      | cons a t => rw [hc] at hxe; simp at hxe

/-- C4 witness: the unlink of a tagged broken link, through
`clean_removes_only_safe_entries`. -/
theorem clean_removes_only_safe_entries_witness :
    ∃ e, e ∈ [(⟨"BUP.tmp.link", true, false, false, []⟩ : FsEntry)] ∧
      strContains e.name bupTag = true ∧
      ((e.isLink = true ∧ e.targetExists = false ∧
          Effect.unlink "BUP.tmp.link" = .unlink e.name) ∨
       (e.isLink = false ∧ e.isMount = false ∧ e.contents = [] ∧
          Effect.unlink "BUP.tmp.link" = .rmdir e.name)) :=
  clean_removes_only_safe_entries [⟨"BUP.tmp.link", true, false, false, []⟩]
    (.unlink "BUP.tmp.link") (by decide)

/-- C5: mount is idempotent on an already-mounted device — with
non-empty mountpoints both backends return `False` ("not newly mounted")
with no effect, and two successive calls return `False` both times with
no temporary directory ever created. -/
theorem mount_idempotent_on_mounted (device : Device) (tmp1 tmp2 : String)
    (hmp : device.mountpoints ≠ []) :
    MountDrivePhysical.mount device = (false, []) ∧
    MountDriveRclone.mount tmp1 device = (false, []) ∧
    MountDrivePhysical.mountTwice device = (false, false, []) ∧
    MountDriveRclone.mountTwice tmp1 tmp2 device = (false, false, []) := by
  have hb : device.mountpoints.isEmpty = false := by
    cases hd : device.mountpoints with
    | nil => exact absurd hd hmp
    | cons a t => rfl
  unfold MountDrivePhysical.mountTwice MountDriveRclone.mountTwice
    MountDrivePhysical.mount MountDriveRclone.mount
  simp [hb]

/-- C5 witness: concrete already-mounted devices through
`mount_idempotent_on_mounted`. -/
theorem mount_idempotent_on_mounted_witness :
    MountDrivePhysical.mount ⟨"sda1", "DATA", "ext4", ["/mnt/a"]⟩ =
      (false, []) ∧
    MountDriveRclone.mount "/tmp/BUP.tmp.b"
        ⟨"rclone", "gd:", "fuse.rclone", ["/mnt/r"]⟩ = (false, []) ∧
    MountDrivePhysical.mountTwice ⟨"sda1", "DATA", "ext4", ["/mnt/a"]⟩ =
      (false, false, []) := by
  refine ⟨?_, ?_, ?_⟩
  · exact (mount_idempotent_on_mounted ⟨"sda1", "DATA", "ext4", ["/mnt/a"]⟩
      "" "" (by decide)).1
  · exact (mount_idempotent_on_mounted
      ⟨"rclone", "gd:", "fuse.rclone", ["/mnt/r"]⟩ "/tmp/BUP.tmp.b" ""
      (by decide)).2.1
  · exact (mount_idempotent_on_mounted ⟨"sda1", "DATA", "ext4", ["/mnt/a"]⟩
      "" "" (by decide)).2.2.1

/-- C6: a tagged live session whose device identifier the platform
lookup could not resolve (`device = none`) is still unmounted by its
path: `umount_all` dispatches the unmount for that path and raises no
error (the unused device key never influences the dispatch). -/
theorem umount_all_unresolved_device (devices : List Device)
    (dirname : String) (s : Session) (d : Device)
    (htag : strContains s.name bupTag = true)
    (hm : s.isMount = true)
    (_hdev : s.device = none)
    (hfind : find_device devices none none
      (some (os_path_join dirname s.name)) = [d]) :
    MountManager.umount_all devices dirname [s] =
      .ok [.dispatchUnmount d.fstype (some (os_path_join dirname s.name))] := by
  unfold MountManager.umount_all MountManager.get_mounted_devices
  simp [htag, hm, dictInsert, MountDrive.unmount, get_device, hfind]

/-- C6 witness: one tagged mounted session at `/tmp/BUP.tmp.x` with an
unresolvable device name, through `umount_all_unresolved_device`. -/
theorem umount_all_unresolved_device_witness :
    MountManager.umount_all [⟨"sda1", "DATA", "ext4", ["/tmp/BUP.tmp.x"]⟩]
      "/tmp" [⟨"BUP.tmp.x", true, none⟩] =
      .ok [.dispatchUnmount "ext4" (some "/tmp/BUP.tmp.x")] := by
  have h := umount_all_unresolved_device
    [⟨"sda1", "DATA", "ext4", ["/tmp/BUP.tmp.x"]⟩] "/tmp"
    ⟨"BUP.tmp.x", true, none⟩ ⟨"sda1", "DATA", "ext4", ["/tmp/BUP.tmp.x"]⟩
    (by decide) rfl rfl (by decide)
  simpa using h

/-- C7 (code bug): when the Linux unmount primitive exits non-zero, the
handler evaluates `e.stderr` on the plain `Exception` raised by
`execute_command`, which has no such attribute — so even a "device
busy" failure raises `AttributeError` instead of printing the warning
and returning, and a non-busy failure raises `AttributeError` instead
of an error carrying the captured stderr. -/
theorem linux_unmount_busy_eval :
    strContains "target is busy" "busy" = true ∧
    MountDriveLinux.unmount "/tmp/BUP.tmp.x" ⟨1, "", "target is busy"⟩ =
      .error (.attributeError "stderr") ∧
    MountDriveLinux.unmount "/tmp/BUP.tmp.x" ⟨32, "", "mount point not found"⟩ =
      .error (.attributeError "stderr") :=
  ⟨by decide, rfl, rfl⟩

/-- Every non-zero exit of the Linux unmount primitive ends in the same
`AttributeError`, busy or not. -/
theorem linux_unmount_nonzero_attribute_error (path : String) (r : CmdResult)
    (h : r.returncode ≠ 0) :
    MountDriveLinux.unmount path r = .error (.attributeError "stderr") := by
  unfold MountDriveLinux.unmount execute_command
  simp [h, PyExc.getattrStderr]

/-- C8 (code bug): on a mount-table entry of filesystem type
`fuse.gocryptfs`, the finder raises `KeyError("dest")` instead of
returning the formatted device — `parse_mount` stores the destination
under the key `dst`, but `_format_finder` reads `dest`. -/
theorem gocryptfs_finder_keyerror_eval :
    GocryptfsFinder.get_drives
      [⟨"/home/u/cipher", "/home/u/plain", "fuse.gocryptfs", "rw,nosuid"⟩] =
      .error (.keyError "dest") := rfl

end Bare


